import Mathlib

/-
Verification of the msgpack serializer support module (pandas/io/packers.py):
the type-tag encode/decode engine, the raw buffer codec (convert/unconvert),
and the read_msgpack entry point, shallowly embedded in Lean.

Modelling conventions:
  - numpy machine values (int64/float64/datetime64/... cells) are abstracted
    as `Int` (the 64-bit pattern); byte flattening of a fixed-width array
    (`tostring` / `np.frombuffer`) is the identity on the value list, since
    both are external numpy routines whose composition the code relies on.
  - the module-global `compressor` is threaded as an explicit argument.
  - external collaborators (numpy, zlib/blosc, dateutil, pandas constructors,
    the msgpack wire layer) are not part of src; where the code calls them we
    model them from the spec, with a doc comment starting `Modelled from the
    spec:` on each such definition.
-/

namespace Packers

/-- Python objects that can appear as elements of an object-dtype array
(primitives and tuples; for example the elements of MultiIndex.values are
tuples). -/
inductive PyObj where
  | pint (n : Int)
  | pstr (s : String)
  | ptup (xs : List PyObj)

/-- The numpy/pandas dtypes that flow through the codec in the modelled
variants. `dt64tz zone` is the pandas timezone-aware datetime64 dtype, whose
name embeds the zone. -/
inductive Dtype where
  | int64
  | int32
  | float64
  | objectD
  | dt64ns
  | td64ns
  | categoryD
  | complex128
  | complex64
  | dt64tz (zone : String)
deriving DecidableEq

/-- dtype.name as numpy/pandas report it. -/
def Dtype.name : Dtype → String
  | .int64 => "int64"
  | .int32 => "int32"
  | .float64 => "float64"
  | .objectD => "object"
  | .dt64ns => "datetime64[ns]"
  | .td64ns => "timedelta64[ns]"
  | .categoryD => "category"
  | .complex128 => "complex128"
  | .complex64 => "complex64"
  | .dt64tz z => "datetime64[ns, " ++ z ++ "]"

/-- is_categorical_dtype on the dtype handed to unconvert. -/
def Dtype.isCategoricalDtype : Dtype → Bool
  | .categoryD => true
  | _ => false

/-- is_object_dtype on the dtype handed to unconvert. -/
def Dtype.isObjectDtype : Dtype → Bool
  | .objectD => true
  | _ => false

/-- pandas_dtype(dtype).base: the fixed-width base of a dtype; only the
timezone-aware datetime dtype differs from its base. -/
def Dtype.base : Dtype → Dtype
  | .dt64tz _ => .dt64ns
  | d => d

/-- The payload of a homogeneous array: fixed-width machine values, or a list
of python objects for object dtype. -/
inductive ArrData where
  | ints (xs : List Int)
  | objs (xs : List PyObj)

/-- Number of elements in the payload. -/
def ArrData.len : ArrData → Nat
  | .ints xs => xs.length
  | .objs xs => xs.length

/-- A numpy array as the codec sees it: dtype, shape and flat (row-major)
payload. -/
structure MArr where
  dtype : Dtype
  shape : List Nat
  data : ArrData

/-- One block of a column-block table: its values (a typed array), the block
class name, and its column placement (mgr_locs) as the list of integer column
positions the block fills. -/
structure BlockM where
  values : MArr
  klass : String
  locs : List Int

/-- The domain objects of the codec: one constructor per supported variant
(matching the isinstance dispatch of encode; distinct constructors encode the
documented most-specific-first priority). -/
inductive Obj where
  | index (name : Option String) (dtype : Dtype) (data : ArrData)
  | rangeIndex (name : Option String) (start stop step : Int)
  | dtIndex (name : Option String) (data : List Int) (freq : Option String)
      (tz : Option String)
  | periodIndex (name : Option String) (freq : String) (data : List Int)
  | multiIndex (names : List (Option String)) (data : List (List PyObj))
  | intervalIndex (name : Option String) (closed : String) (left right : Obj)
  | intervalArray (closed : String) (left right : Obj)
  | categorical (codes : List Int) (categories : Obj) (ordered : Bool)
  | series (name : Option String) (index : Obj) (dtype : Dtype) (data : ArrData)
  | sparseSeries
  | sparseFrame
  | table (klass : String) (axes : List Obj) (blocks : List BlockM)
  | timestamp (value : Int) (freq : Option String) (tz : Option String)
  | nat0
  | timedelta64 (v : Int)
  | timedelta (days seconds micros : Int)
  | datetime64 (v : Int)
  | datetime (v : Int)
  | date (v : Int)
  | period (ordinal : Int) (freq : String)
  | interval (left right : Int) (closed : String)
  | blockIndex (length : Int) (blocs blengths : List Int)
  | intIndex (length : Int) (indices : List Int)
  | ndarray (shape : List Nat) (dtype : Dtype) (data : ArrData)
  | npScalar (dtype : Dtype) (v : Int)
  | npComplexScalar (dtype : Dtype) (re im : Int)
  | pyComplex (re im : Int)

/-- The values the wire layer and the encode/decode hooks exchange: msgpack
primitives, the extension payload, mappings, and domain objects (a value that
the packer has not yet encoded, or that the unpacker has already decoded
bottom-up before the enclosing record is decoded). -/
inductive Value where
  | nil
  | bool (b : Bool)
  | int (n : Int)
  | str (s : String)
  | numRepr (neg : Bool) (digits : List Nat)
  | bytes (bs : List Int)
  | seq (xs : List Value)
  | map (kvs : List (String × Value))
  | ext (code : Int) (payload : List Int)
  | obj (o : Obj)

/-- Lookup of a key in a record (python dict access on the mappings the hooks
exchange). -/
def getf (kvs : List (String × Value)) (k : String) : Option Value :=
  match kvs with
  | [] => none
  | (k2, v) :: rest => if k2 = k then some v else getf rest k

/-- Required-field access, `obj[k]` (KeyError when the field is absent). -/
def getE (kvs : List (String × Value)) (k : String) : Except String Value :=
  match getf kvs k with
  | some v => .ok v
  | none => .error ("KeyError: " ++ k)

mutual

/-- Wire image of a python object stored in an object-dtype payload: ints and
strings are wire primitives, tuples become sequences. -/
def pyObjToValue : PyObj → Value
  | .pint n => .int n
  | .pstr s => .str s
  | .ptup xs => .seq (pyListToValues xs)

/-- pyObjToValue mapped over a list. -/
def pyListToValues : List PyObj → List Value
  | [] => []
  | x :: xs => pyObjToValue x :: pyListToValues xs

end

mutual

/-- Read a python object back from its wire image. -/
def pyObjOfValue : Value → Option PyObj
  | .int n => some (.pint n)
  | .str s => some (.pstr s)
  | .seq xs => (pyListOfValues xs).map .ptup
  | _ => none

/-- pyObjOfValue over a list, failing if any element fails. -/
def pyListOfValues : List Value → Option (List PyObj)
  | [] => some []
  | v :: vs =>
    match pyObjOfValue v, pyListOfValues vs with
    | some p, some ps => some (p :: ps)
    | _, _ => none

end

/-- Modelled from the spec: the canonical decimal string representation of a
numeric scalar (repr on the encode side), represented by its sign and its
base-10 digit list, which determine the decimal string uniquely; the spec
requires this representation to avoid precision loss. -/
def canonRepr (v : Int) : Bool × List Nat :=
  (decide (v < 0), Nat.digits 10 v.natAbs)

/-- Modelled from the spec: parsing the canonical decimal representation back
into the numeric value (the numpy scalar constructor, dateutil parse and the
complex constructor on the decode side); left inverse of canonRepr. -/
def canonParse (r : Bool × List Nat) : Int :=
  if r.1 then -((Nat.ofDigits 10 r.2 : Nat) : Int)
  else ((Nat.ofDigits 10 r.2 : Nat) : Int)

/-- Wire image of a canonical decimal representation. -/
def canonV (v : Int) : Value :=
  .numRepr (canonRepr v).1 (canonRepr v).2

/-- The prefix of the name of a timezone-aware datetime dtype. -/
def tzNamePre : List Char := "datetime64[ns, ".data

/-- Modelled from the spec: recognizing the name of a timezone-aware
datetime64 dtype (pandas_dtype on the stored name string) and extracting the
zone. -/
def stripTzZone (s : String) : Option String :=
  if s.data.take 15 = tzNamePre ∧ s.data.getLast? = some (']' : Char) then
    some (String.mk ((s.data.drop 15).dropLast))
  else
    none

/-- dtype_for from packers.py combined with the downstream pandas_dtype
resolution: maps a stored dtype name back to the dtype. Unknown names are an
error (the source returns the unresolved name, which fails downstream). -/
def dtypeFor (s : String) : Except String Dtype :=
  match stripTzZone s with
  | some z => .ok (.dt64tz z)
  | none =>
    if s = "int64" then .ok .int64
    else if s = "int32" then .ok .int32
    else if s = "float64" then .ok .float64
    else if s = "object" then .ok .objectD
    else if s = "datetime64[ns]" then .ok .dt64ns
    else if s = "timedelta64[ns]" then .ok .td64ns
    else if s = "category" then .ok .categoryD
    else if s = "complex128" then .ok .complex128
    else if s = "complex64" then .ok .complex64
    else .error ("TypeError: unknown dtype " ++ s)

/-- Modelled from the spec: np.typeDict lookup by name, used by the ndarray
decode branch; only the plain builtin scalar-type names are keys (parametrized
names such as datetime64[ns] are not, and raise KeyError). -/
def npTypeDict (s : String) : Except String Dtype :=
  if s = "int64" then .ok .int64
  else if s = "int32" then .ok .int32
  else if s = "float64" then .ok .float64
  else if s = "object" then .ok .objectD
  else if s = "complex128" then .ok .complex128
  else if s = "complex64" then .ok .complex64
  else .error ("KeyError: " ++ s)

/-- Modelled from the spec: zlib.compress (external backend); an invertible
stream transformation, abstracted as prepending a marker. -/
def zlibCompress (bs : List Int) : List Int := 120 :: bs

/-- Modelled from the spec: zlib.decompress, left inverse of zlibCompress. -/
def zlibDecompress (bs : List Int) : List Int := bs.drop 1

/-- Modelled from the spec: blosc.compress (external backend). -/
def bloscCompress (bs : List Int) : List Int := 98 :: bs

/-- Modelled from the spec: blosc.decompress, left inverse of bloscCompress. -/
def bloscDecompress (bs : List Int) : List Int := bs.drop 1

/-- Modelled from the spec: numpy tostring flattens a fixed-width array to its
raw byte buffer; the buffer is abstracted as the list of machine values. -/
def npToString (xs : List Int) : List Int := xs

/-- Modelled from the spec: np.frombuffer reinterprets a byte buffer as a
fixed-width array; inverse of npToString under the same dtype. -/
def npFromBuffer (xs : List Int) : List Int := xs

/-- values.encode(latin1) on the legacy string payload path: one byte per
character. -/
def latin1Encode (s : String) : List Int :=
  s.data.map (fun c => (c.toNat : Int))

/-- values.ravel().tolist(): the flat payload as a list of python values. -/
def ArrData.tolist : ArrData → List Value
  | .ints xs => xs.map Value.int
  | .objs xs => pyListToValues xs

/-- values.ravel() viewed as machine values (the fixed-width payload); only
meaningful for non-object dtypes, which hold ints payloads. -/
def ArrData.ravel : ArrData → List Int
  | .ints xs => xs
  | .objs _ => []

/-- convert from packers.py: convert the numpy values to a msgpack payload.
The module-global compressor is the argument comp. The is_categorical_dtype
passthrough branch is not represented: MArr holds only fixed-width and object
payloads, and the standalone Categorical variant is encoded by the category
branch of encode without passing through convert. The dead object-dtype
re-check inside the compression branches (unreachable after the object branch
returned) is omitted. -/
def convert (comp : Option String) (a : MArr) : Value :=
  if a.dtype.isObjectDtype then
    -- is_object_dtype(dtype): return values.ravel().tolist()
    .seq a.data.tolist
  else
    -- needs_i8_conversion dtypes are viewed as i8 first (identity on the
    -- abstracted machine values); then v = values.ravel()
    let v := a.data.ravel
    if comp = some "zlib" then
      .ext 0 (zlibCompress (npToString v))
    else if comp = some "blosc" then
      .ext 0 (bloscCompress (npToString v))
    else
      -- ndarray on original dtype
      .ext 0 (npToString v)

/-- The payload returned by unconvert. The is_categorical_dtype branch of the
source returns its argument unchanged, which passthru records. -/
inductive UncData where
  | ints (xs : List Int)
  | objs (xs : List PyObj)
  | passthru (v : Value)

/-- Result of unconvert, together with the provenance facts the source
establishes for it: priv is true when the returned array owns a freshly
allocated (or exclusively moved) buffer that aliases neither the input payload
nor memory retained by a decompression backend; writable mirrors the writable
flag of the returned array; warned records whether a PerformanceWarning was
emitted. -/
structure UncRes where
  data : UncData
  priv : Bool
  writable : Bool
  warned : Bool

/-- unconvert from packers.py. `cached` models the runtime condition in which
move_into_mutable_buffer raises BadMove because the decompression backend kept
a reference to (cached) its output bytes; the BadMove failure payload carries
those decompressed bytes (e.args[0]). -/
def unconvert (values : Value) (dtype : Dtype) (compress : Option String)
    (cached : Bool) : Except String UncRes :=
  -- as_is_ext = isinstance(values, ExtType) and values.code == 0
  let asIsExt : Bool := match values with | .ext 0 _ => true | _ => false
  -- if as_is_ext: values = values.data
  let values1 : Value := match values with | .ext 0 d => .bytes d | v => v
  if dtype.isCategoricalDtype then
    -- return values: the input object itself, unchanged (aliases the input)
    .ok ⟨.passthru values1, false, false, false⟩
  else if dtype.isObjectDtype then
    -- return np.array(values, dtype=object): a fresh object array
    match values1 with
    | .seq xs =>
      match pyListOfValues xs with
      | some ps => .ok ⟨.objs ps, true, true, false⟩
      | none => .error "TypeError: cannot build object array"
    | _ => .error "TypeError: cannot build object array"
  else
    -- dtype = pandas_dtype(dtype).base (the fixed-width reinterpretation
    -- target; identity except for timezone-aware dtypes)
    -- if not as_is_ext: values = values.encode(latin1)
    let bs : Except String (List Int) :=
      if asIsExt then
        match values1 with
        | .bytes d => .ok d
        | _ => .error "unreachable"
      else
        match values1 with
        | .str s => .ok (latin1Encode s)
        | _ => .error "AttributeError: encode"
    match bs with
    | .error e => .error e
    | .ok b =>
      match compress with
      | some c =>
        if c = "" then
          -- `if compress:` is false for the empty string: fall through to
          -- the plain copy below
          .ok ⟨.ints (npFromBuffer b), true, true, false⟩
        else if c = "zlib" ∨ c = "blosc" then
          let dec := if c = "zlib" then zlibDecompress b else bloscDecompress b
          if cached then
            -- except _BadMove as e: values = e.args[0]; warn iff len > 1;
            -- fall through to np.frombuffer(values).copy() with writeable set
            .ok ⟨.ints (npFromBuffer dec), true, true, decide (1 < dec.length)⟩
          else
            -- np.frombuffer(move_into_mutable_buffer(decompress(values))):
            -- the moved buffer is exclusively owned and mutable
            .ok ⟨.ints (npFromBuffer dec), true, true, false⟩
        else
          -- raise ValueError (quotes of the source message elided)
          .error "ValueError: compress must be one of zlib or blosc"
      | none =>
        -- buf = np.frombuffer(values, dtype).copy(); buf.flags.writeable = True
        .ok ⟨.ints (npFromBuffer b), true, true, false⟩

/-- Wire image of an optional string field (None or a str). -/
def optStrV : Option String → Value
  | none => .nil
  | some s => .str s

/-- obj.__class__.__name__ of the generic indexes, determined by dtype (the
decode side ignores it for the generic index tag). -/
def indexKlass : Dtype → String
  | .int64 => "Int64Index"
  | .float64 => "Float64Index"
  | .td64ns => "TimedeltaIndex"
  | _ => "Index"

/-- The fields of the per-block record of the block_manager tag.
mgr_locs.as_array is an int64 ndarray; like every raw array placed in a
record, it appears to the hooks as a domain object (the wire layer encodes
and decodes it recursively through the ndarray tag). -/
def encodeBlockKvs (comp : Option String) (b : BlockM) :
    List (String × Value) :=
  [("locs", .obj (.ndarray [b.locs.length] .int64 (.ints b.locs))),
   ("values", convert comp b.values),
   ("shape", .seq (b.values.shape.map (fun n => .int (Int.ofNat n)))),
   ("dtype", .str b.values.dtype.name),
   ("klass", .str b.klass),
   ("compress", optStrV comp)]

/-- The per-block record of the block_manager tag. -/
def encodeBlock (comp : Option String) (b : BlockM) : Value :=
  .map (encodeBlockKvs comp b)

/-- encode from packers.py: the data encoder hook. Raising is modelled as the
error case. The two commented-out sparse record shapes of the source are dead
code behind the raises and are not modelled. The tz normalization of the
datetime-index branch (tz_convert to UTC before reading the fields) leaves the
i8 values unchanged and turns the dtype name into its UTC form, which is what
the emitted record shows. -/
def encode (comp : Option String) (o : Obj) : Except String Value :=
  match o with
  | .rangeIndex name start stop step =>
    .ok (.map [("typ", .str "range_index"),
               ("klass", .str "RangeIndex"),
               ("name", optStrV name),
               ("start", .int start),
               ("stop", .int stop),
               ("step", .int step)])
  | .periodIndex name freq data =>
    .ok (.map [("typ", .str "period_index"),
               ("klass", .str "PeriodIndex"),
               ("name", optStrV name),
               ("freq", .str freq),
               ("dtype", .str ("period[" ++ freq ++ "]")),
               ("data", convert comp ⟨.int64, [data.length], .ints data⟩),
               ("compress", optStrV comp)])
  | .dtIndex name data freq tz =>
    .ok (.map [("typ", .str "datetime_index"),
               ("klass", .str "DatetimeIndex"),
               ("name", optStrV name),
               ("dtype", .str (match tz with
                 | none => "datetime64[ns]"
                 | some _ => "datetime64[ns, UTC]")),
               ("data", convert comp ⟨.int64, [data.length], .ints data⟩),
               ("freq", optStrV freq),
               ("tz", optStrV tz),
               ("compress", optStrV comp)])
  | .intervalIndex name closed left right =>
    .ok (.map [("typ", .str "interval_index"),
               ("klass", .str "IntervalIndex"),
               ("name", optStrV name),
               ("left", .obj left),
               ("right", .obj right),
               ("closed", .str closed)])
  | .intervalArray closed left right =>
    -- an IntervalArray is not an Index, so it never reaches the interval
    -- branch nested inside the isinstance(obj, Index) block, matches no
    -- other dispatch, and falls through to the final `return obj`
    -- passthrough (the wire layer cannot serialize it)
    .ok (.obj (.intervalArray closed left right))
  | .multiIndex names data =>
    .ok (.map [("typ", .str "multi_index"),
               ("klass", .str "MultiIndex"),
               ("names", .seq (names.map optStrV)),
               ("dtype", .str "object"),
               ("data", convert comp
                 ⟨.objectD, [data.length], .objs (data.map .ptup)⟩),
               ("compress", optStrV comp)])
  | .index name dtype data =>
    .ok (.map [("typ", .str "index"),
               ("klass", .str (indexKlass dtype)),
               ("name", optStrV name),
               ("dtype", .str dtype.name),
               ("data", convert comp ⟨dtype, [data.len], data⟩),
               ("compress", optStrV comp)])
  | .categorical codes categories ordered =>
    -- name: getattr(obj, name, None) is always None on a Categorical; the
    -- integer width of the codes array is abstracted as int64
    .ok (.map [("typ", .str "category"),
               ("klass", .str "Categorical"),
               ("name", .nil),
               ("codes", .obj (.ndarray [codes.length] .int64 (.ints codes))),
               ("categories", .obj categories),
               ("ordered", .bool ordered),
               ("compress", optStrV comp)])
  | .sparseSeries =>
    .error "NotImplementedError: msgpack sparse series is not implemented"
  | .series name index dtype data =>
    .ok (.map [("typ", .str "series"),
               ("klass", .str "Series"),
               ("name", optStrV name),
               ("index", .obj index),
               ("dtype", .str dtype.name),
               ("data", convert comp ⟨dtype, [data.len], data⟩),
               ("compress", optStrV comp)])
  | .sparseFrame =>
    .error "NotImplementedError: msgpack sparse frame is not implemented"
  | .table klass axes blocks =>
    -- data = obj._data (consolidated); the consolidation step is external
    -- BlockManager logic, so the table is modelled by its consolidated blocks
    .ok (.map [("typ", .str "block_manager"),
               ("klass", .str klass),
               ("axes", .seq (axes.map Value.obj)),
               ("blocks", .seq (blocks.map (encodeBlock comp)))])
  | .timestamp value freq tz =>
    .ok (.map [("typ", .str "timestamp"),
               ("value", .int value),
               ("freq", optStrV freq),
               ("tz", optStrV tz)])
  | .nat0 =>
    .ok (.map [("typ", .str "nat")])
  | .timedelta64 v =>
    .ok (.map [("typ", .str "timedelta64"),
               ("data", .int v)])
  | .timedelta days seconds micros =>
    .ok (.map [("typ", .str "timedelta"),
               ("data", .seq [.int days, .int seconds, .int micros])])
  | .datetime64 v =>
    .ok (.map [("typ", .str "datetime64"),
               ("data", canonV v)])
  | .datetime v =>
    .ok (.map [("typ", .str "datetime"),
               ("data", canonV v)])
  | .date v =>
    .ok (.map [("typ", .str "date"),
               ("data", canonV v)])
  | .period ordinal freq =>
    .ok (.map [("typ", .str "period"),
               ("ordinal", .int ordinal),
               ("freq", .str freq)])
  | .interval left right closed =>
    .ok (.map [("typ", .str "interval"),
               ("left", .int left),
               ("right", .int right),
               ("closed", .str closed)])
  | .blockIndex length blocs blengths =>
    .ok (.map [("typ", .str "block_index"),
               ("klass", .str "BlockIndex"),
               ("blocs", .obj (.ndarray [blocs.length] .int32 (.ints blocs))),
               ("blengths",
                .obj (.ndarray [blengths.length] .int32 (.ints blengths))),
               ("length", .int length)])
  | .intIndex length indices =>
    .ok (.map [("typ", .str "int_index"),
               ("klass", .str "IntIndex"),
               ("indices",
                .obj (.ndarray [indices.length] .int32 (.ints indices))),
               ("length", .int length)])
  | .ndarray shape dtype data =>
    .ok (.map [("typ", .str "ndarray"),
               ("shape", .seq (shape.map (fun n => .int (Int.ofNat n)))),
               ("ndim", .int (shape.length : Int)),
               ("dtype", .str dtype.name),
               ("data", convert comp ⟨dtype, shape, data⟩),
               ("compress", optStrV comp)])
  | .npScalar dtype v =>
    .ok (.map [("typ", .str "np_scalar"),
               ("dtype", .str dtype.name),
               ("data", canonV v)])
  | .npComplexScalar dtype re im =>
    .ok (.map [("typ", .str "np_scalar"),
               ("sub_typ", .str "np_complex"),
               ("dtype", .str dtype.name),
               ("real", canonV re),
               ("imag", canonV im)])
  | .pyComplex re im =>
    .ok (.map [("typ", .str "np_complex"),
               ("real", canonV re),
               ("imag", canonV im)])

/-- Read a required str field. -/
def asStr : Value → Except String String
  | .str s => .ok s
  | _ => .error "TypeError: str expected"

/-- Read a field that is None or a str. -/
def asOptStr : Value → Except String (Option String)
  | .nil => .ok none
  | .str s => .ok (some s)
  | _ => .error "TypeError: optional str expected"

/-- Read a required int field. -/
def asInt : Value → Except String Int
  | .int n => .ok n
  | _ => .error "TypeError: int expected"

/-- Read a required bool field. -/
def asBool : Value → Except String Bool
  | .bool b => .ok b
  | _ => .error "TypeError: bool expected"

/-- Read a field holding an already-decoded domain object. -/
def asObj : Value → Except String Obj
  | .obj o => .ok o
  | _ => .error "TypeError: object expected"

/-- Read a field holding an already-decoded integer ndarray (codes, locs,
blocs, blengths, indices) as its value list. -/
def asIntArr : Value → Except String (List Int)
  | .obj (.ndarray _ _ (.ints xs)) => .ok xs
  | _ => .error "TypeError: integer array expected"

/-- Read a canonical decimal representation field and parse it (the numpy
scalar constructor or dateutil parse applied to the stored repr). -/
def asCanon : Value → Except String Int
  | .numRepr neg ds => .ok (canonParse (neg, ds))
  | _ => .error "TypeError: repr string expected"

/-- Read the raw canonical repr (sign and digit list) of a stored numeric
string, without parsing it. -/
def asNumRepr : Value → Except String (Bool × List Nat)
  | .numRepr neg ds => .ok (neg, ds)
  | _ => .error "TypeError: repr string expected"

/-- Read a stored shape tuple. -/
def asShape : Value → Except String (List Nat)
  | .seq xs => (xs.mapM asInt).map (fun ns => ns.map Int.toNat)
  | _ => .error "TypeError: shape expected"

/-- obj.get(compress): absent means None. -/
def getCompress (kvs : List (String × Value)) : Except String (Option String) :=
  match getf kvs "compress" with
  | some v => asOptStr v
  | none => .ok none

/-- View an unconvert result as an array payload; the categorical passthrough
does not produce one. -/
def UncData.toArr : UncData → Except String ArrData
  | .ints xs => .ok (.ints xs)
  | .objs xs => .ok (.objs xs)
  | .passthru _ => .error "TypeError: array payload expected"

mutual

/-- Structural equality test on python objects (label comparison in
get_indexer). -/
def pyObjBeq : PyObj → PyObj → Bool
  | .pint a, .pint b => a == b
  | .pstr a, .pstr b => a == b
  | .ptup a, .ptup b => pyListBeq a b
  | _, _ => false

/-- pyObjBeq on lists. -/
def pyListBeq : List PyObj → List PyObj → Bool
  | [], [] => true
  | a :: as1, b :: bs1 => pyObjBeq a b && pyListBeq as1 bs1
  | _, _ => false

end

/-- The labels of an axis index, as python objects. -/
def indexLabels : Obj → Option (List PyObj)
  | .index _ _ (.objs xs) => some xs
  | .index _ _ (.ints xs) => some (xs.map .pint)
  | _ => none

/-- Modelled from the spec: Index.get_indexer positional label lookup used by
the legacy (items-based) placement path: each label maps to the first position
carrying it in the axis, or -1; duplicates therefore cannot be
disambiguated. -/
def getIndexer (axis : Obj) (itemsV : Value) : Except String (List Int) := do
  let axv ← match indexLabels axis with
    | some xs => Except.ok xs
    | none => Except.error "TypeError: get_indexer"
  let io ← asObj itemsV
  let iv ← match indexLabels io with
    | some xs => Except.ok xs
    | none => Except.error "TypeError: get_indexer"
  Except.ok (iv.map (fun lbl =>
    match axv.findIdx? (fun a => pyObjBeq a lbl) with
    | some i => (i : Int)
    | none => -1))

/-- tuple(x) applied to an element of an object payload (the elements of a
multi_index payload must be tuples). -/
def pyTuple : PyObj → Except String (List PyObj)
  | .ptup t => .ok t
  | _ => .error "TypeError: tuple expected"

/-- View a value as a record (the per-block mappings inside the blocks
field). -/
def asMapKvs : Value → Except String (List (String × Value))
  | .map kvs => .ok kvs
  | _ => .error "TypeError: block record expected"

/-- View an unconvert result as a fixed-width payload. -/
def UncData.toInts : UncData → Except String (List Int)
  | .ints xs => .ok xs
  | _ => .error "TypeError: int payload expected"

/-- create_block from the block_manager branch of decode: restore the raw
values, reshape to the recorded shape (flat storage plus shape in the model),
compute the placement from locs when present and by legacy label lookup
otherwise, rewrap timezone-aware datetime values (the zone travels in the
dtype; the i8 payload is unchanged by the DatetimeArray wrapper), and
make_block with the recorded class. -/
def createBlock (cached : Bool) (axes : List Obj)
    (b : List (String × Value)) : Except String BlockM := do
  let dname ← asStr (← getE b "dtype")
  let dtype ← dtypeFor dname
  let compress ← asOptStr (← getE b "compress")
  let r ← unconvert (← getE b "values") dtype compress cached
  let flat ← r.data.toArr
  let shape ← asShape (← getE b "shape")
  let placement ← match getf b "locs" with
    | some lv => asIntArr lv
    | none => do
      -- placement = axes[0].get_indexer(b[items])
      let items ← getE b "items"
      let ax0 ← match axes.head? with
        | some a => Except.ok a
        | none => Except.error "IndexError: axes"
      getIndexer ax0 items
  let klass ← asStr (← getE b "klass")
  Except.ok ⟨⟨dtype, shape, flat⟩, klass, placement⟩

/-- decode from packers.py: the deserialization hook, dispatching on the typ
tag; records without typ, and records with an unrecognized typ, are returned
unchanged. External constructors invoked by the branches (Index, Timestamp,
MultiIndex.from_tuples, Categorical.from_codes, the globals() class lookups)
are modelled as building the corresponding variant directly; the tz reversal
of the datetime_index branch (tz_localize UTC then tz_convert) sets the zone
and leaves the i8 values unchanged. Two branches fail on inputs encode can
emit: interval_array records die on the name keyword that
IntervalArray.from_arrays does not accept, and np_complex records with a
signed imaginary repr die inside complex() on the malformed concatenated
string. -/
def decode (cached : Bool) (v : Value) : Except String Value :=
  match v with
  | .map kvs =>
    match getf kvs "typ" with
    | none => .ok (.map kvs)
    | some tv =>
      match tv with
      | .str typ =>
        if typ = "timestamp" then do
          -- freq = obj[freq] if freq in obj else obj[offset]
          let fv ← match getf kvs "freq" with
            | some f => Except.ok f
            | none => getE kvs "offset"
          let value ← asInt (← getE kvs "value")
          let tz ← asOptStr (← getE kvs "tz")
          let freq ← asOptStr fv
          Except.ok (.obj (.timestamp value freq tz))
        else if typ = "nat" then
          .ok (.obj .nat0)
        else if typ = "period" then do
          let ordinal ← asInt (← getE kvs "ordinal")
          let freq ← asStr (← getE kvs "freq")
          Except.ok (.obj (.period ordinal freq))
        else if typ = "index" then do
          let dtype ← dtypeFor (← asStr (← getE kvs "dtype"))
          let compress ← getCompress kvs
          let r ← unconvert (← getE kvs "data") dtype compress cached
          let data ← r.data.toArr
          let name ← asOptStr (← getE kvs "name")
          Except.ok (.obj (.index name dtype data))
        else if typ = "range_index" then do
          let start ← asInt (← getE kvs "start")
          let stop ← asInt (← getE kvs "stop")
          let step ← asInt (← getE kvs "step")
          let name ← asOptStr (← getE kvs "name")
          Except.ok (.obj (.rangeIndex name start stop step))
        else if typ = "multi_index" then do
          let dtype ← dtypeFor (← asStr (← getE kvs "dtype"))
          let compress ← getCompress kvs
          let r ← unconvert (← getE kvs "data") dtype compress cached
          -- data = [tuple(x) for x in data]
          let tups ← match r.data with
            | .objs ps => ps.mapM pyTuple
            | _ => Except.error "TypeError: object payload expected"
          let names ← match (← getE kvs "names") with
            | .seq ns => ns.mapM asOptStr
            | _ => Except.error "TypeError: names expected"
          Except.ok (.obj (.multiIndex names tups))
        else if typ = "period_index" then do
          let r ← unconvert (← getE kvs "data") .int64 (← getCompress kvs)
            cached
          let data ← r.data.toInts
          let name ← asOptStr (← getE kvs "name")
          -- freq = d.pop(freq, None); PeriodArray requires it
          let freq ← asStr (← getE kvs "freq")
          Except.ok (.obj (.periodIndex name freq data))
        else if typ = "datetime_index" then do
          let r ← unconvert (← getE kvs "data") .int64 (← getCompress kvs)
            cached
          let data ← r.data.toInts
          let name ← asOptStr (← getE kvs "name")
          let freq ← asOptStr (← getE kvs "freq")
          -- result = DatetimeIndex(data, name=name, freq=freq); if tz is not
          -- None: result = result.tz_localize(UTC).tz_convert(tz)
          let tz ← asOptStr (← getE kvs "tz")
          Except.ok (.obj (.dtIndex name data freq tz))
        else if typ = "interval_index" ∨ typ = "interval_array" then do
          let klass ← asStr (← getE kvs "klass")
          let left ← asObj (← getE kvs "left")
          let right ← asObj (← getE kvs "right")
          let closed ← asStr (← getE kvs "closed")
          let name ← asOptStr (← getE kvs "name")
          -- globals()[klass].from_arrays(left, right, closed, name=name)
          if klass = "IntervalIndex" then
            Except.ok (.obj (.intervalIndex name closed left right))
          else if klass = "IntervalArray" then
            -- IntervalArray.from_arrays takes no name keyword argument
            Except.error
              "TypeError: from_arrays got an unexpected keyword argument name"
          else
            Except.error ("KeyError: " ++ klass)
        else if typ = "category" then do
          let klass ← asStr (← getE kvs "klass")
          if klass = "Categorical" then do
            let codes ← asIntArr (← getE kvs "codes")
            let categories ← asObj (← getE kvs "categories")
            let ordered ← asBool (← getE kvs "ordered")
            Except.ok (.obj (.categorical codes categories ordered))
          else
            Except.error ("KeyError: " ++ klass)
        else if typ = "interval" then do
          let left ← asInt (← getE kvs "left")
          let right ← asInt (← getE kvs "right")
          let closed ← asStr (← getE kvs "closed")
          Except.ok (.obj (.interval left right closed))
        else if typ = "series" then do
          let dtype ← dtypeFor (← asStr (← getE kvs "dtype"))
          let index ← asObj (← getE kvs "index")
          let compress ← asOptStr (← getE kvs "compress")
          let r ← unconvert (← getE kvs "data") dtype compress cached
          let data ← r.data.toArr
          let name ← asOptStr (← getE kvs "name")
          Except.ok (.obj (.series name index dtype data))
        else if typ = "block_manager" then do
          let axes ← match (← getE kvs "axes") with
            | .seq vs => vs.mapM asObj
            | _ => Except.error "TypeError: axes expected"
          let brecs ← match (← getE kvs "blocks") with
            | .seq vs => vs.mapM asMapKvs
            | _ => Except.error "TypeError: blocks expected"
          let blocks ← brecs.mapM (createBlock cached axes)
          let klass ← asStr (← getE kvs "klass")
          Except.ok (.obj (.table klass axes blocks))
        else if typ = "datetime" then do
          let v ← asCanon (← getE kvs "data")
          Except.ok (.obj (.datetime v))
        else if typ = "datetime64" then do
          let v ← asCanon (← getE kvs "data")
          Except.ok (.obj (.datetime64 v))
        else if typ = "date" then do
          let v ← asCanon (← getE kvs "data")
          Except.ok (.obj (.date v))
        else if typ = "timedelta" then do
          let t ← match (← getE kvs "data") with
            | .seq [.int d, .int s, .int m] => Except.ok (d, s, m)
            | _ => Except.error "TypeError: timedelta tuple expected"
          Except.ok (.obj (.timedelta t.1 t.2.1 t.2.2))
        else if typ = "timedelta64" then do
          let v ← asInt (← getE kvs "data")
          Except.ok (.obj (.timedelta64 v))
        else if typ = "block_index" then do
          let klass ← asStr (← getE kvs "klass")
          if klass = "BlockIndex" then do
            let length ← asInt (← getE kvs "length")
            let blocs ← asIntArr (← getE kvs "blocs")
            let blengths ← asIntArr (← getE kvs "blengths")
            Except.ok (.obj (.blockIndex length blocs blengths))
          else
            Except.error ("KeyError: " ++ klass)
        else if typ = "int_index" then do
          let klass ← asStr (← getE kvs "klass")
          if klass = "IntIndex" then do
            let length ← asInt (← getE kvs "length")
            let indices ← asIntArr (← getE kvs "indices")
            Except.ok (.obj (.intIndex length indices))
          else
            Except.error ("KeyError: " ++ klass)
        else if typ = "ndarray" then do
          let dtype ← npTypeDict (← asStr (← getE kvs "dtype"))
          let r ← unconvert (← getE kvs "data") dtype (← getCompress kvs)
            cached
          let flat ← r.data.toArr
          let shape ← asShape (← getE kvs "shape")
          Except.ok (.obj (.ndarray shape dtype flat))
        else if typ = "np_scalar" then
          match getf kvs "sub_typ" with
          | some (.str "np_complex") => do
            -- c2f(real, imag, dtype): dtype name must be a c2f_dict key
            let dname ← asStr (← getE kvs "dtype")
            let dtype ←
              if dname = "complex" ∨ dname = "complex128" then
                Except.ok Dtype.complex128
              else if dname = "complex64" then
                Except.ok Dtype.complex64
              else
                Except.error ("KeyError: " ++ dname)
            let re ← asCanon (← getE kvs "real")
            let im ← asCanon (← getE kvs "imag")
            Except.ok (.obj (.npComplexScalar dtype re im))
          | _ => do
            let dtype ← dtypeFor (← asStr (← getE kvs "dtype"))
            let v ← asCanon (← getE kvs "data")
            Except.ok (.obj (.npScalar dtype v))
        else if typ = "np_complex" then do
          -- complex(obj[real] + "+" + obj[imag] + "j"): when the imaginary
          -- repr carries its own minus sign the built string contains "+-"
          -- and complex() rejects it as malformed
          let re ← asNumRepr (← getE kvs "real")
          let im ← asNumRepr (← getE kvs "imag")
          if im.1 then
            Except.error "ValueError: complex() arg is a malformed string"
          else
            Except.ok (.obj (.pyComplex (canonParse re) (canonParse im)))
        else
          -- unknown tags, and plain containers, pass through unchanged
          .ok (.map kvs)
      | _ => .ok (.map kvs)
  | _ => .error "AttributeError: get"

/-- The payload agrees with the dtype (fixed-width dtypes hold machine values,
object dtype holds python objects; categorical payloads never occur in an
MArr). -/
def ArrData.matches : ArrData → Dtype → Bool
  | .objs _, .objectD => true
  | .ints _, .int64 => true
  | .ints _, .int32 => true
  | .ints _, .float64 => true
  | .ints _, .dt64ns => true
  | .ints _, .td64ns => true
  | .ints _, .dt64tz _ => true
  | _, _ => false

/-- Dtypes a generic (non-specialized) index can carry in the model. -/
def indexDtypeOK : Dtype → Bool
  | .int64 => true
  | .float64 => true
  | .objectD => true
  | .td64ns => true
  | _ => false

/-- Dtypes a series can carry in the model. -/
def seriesDtypeOK : Dtype → Bool
  | .int64 => true
  | .float64 => true
  | .objectD => true
  | .td64ns => true
  | .dt64ns => true
  | _ => false

/-- Dtypes a consolidated block can carry in the model. -/
def blockDtypeOK : Dtype → Bool
  | .int64 => true
  | .float64 => true
  | .objectD => true
  | .td64ns => true
  | .dt64ns => true
  | .dt64tz _ => true
  | _ => false

/-- Dtypes of a bare ndarray: names that are actual np.typeDict keys. -/
def ndarrayDtypeOK : Dtype → Bool
  | .int64 => true
  | .int32 => true
  | .float64 => true
  | .objectD => true
  | _ => false

/-- Dtypes of a real-valued numpy scalar. -/
def scalarDtypeOK : Dtype → Bool
  | .int64 => true
  | .int32 => true
  | .float64 => true
  | _ => false

/-- Dtypes of a complex numpy scalar (the c2f_dict keys). -/
def complexDtypeOK : Dtype → Bool
  | .complex128 => true
  | .complex64 => true
  | _ => false

/-- Well-formedness of one block. -/
def blockWF (b : BlockM) : Bool :=
  blockDtypeOK b.values.dtype && b.values.data.matches b.values.dtype

mutual

/-- Well-formedness of a domain object: payloads agree with dtypes and dtypes
are the ones the corresponding runtime objects can carry. The two sparse
container variants are not well-formed domain values of the codec (they are
refused at encode time). -/
def Obj.wfb : Obj → Bool
  | .index _ dtype data => indexDtypeOK dtype && data.matches dtype
  | .rangeIndex _ _ _ _ => true
  | .dtIndex _ _ _ _ => true
  | .periodIndex _ _ _ => true
  | .multiIndex _ _ => true
  | .intervalIndex _ _ left right => left.wfb && right.wfb
  | .intervalArray _ _ _ => false
  | .categorical _ categories _ => categories.wfb
  | .series _ index dtype data =>
    index.wfb && (seriesDtypeOK dtype && data.matches dtype)
  | .sparseSeries => false
  | .sparseFrame => false
  | .table _ axes blocks => wfbList axes && blocks.all blockWF
  | .timestamp _ _ _ => true
  | .nat0 => true
  | .timedelta64 _ => true
  | .timedelta _ _ _ => true
  | .datetime64 _ => true
  | .datetime _ => true
  | .date _ => true
  | .period _ _ => true
  | .interval _ _ _ => true
  | .blockIndex _ _ _ => true
  | .intIndex _ _ => true
  | .ndarray _ dtype data => ndarrayDtypeOK dtype && data.matches dtype
  | .npScalar dtype _ => scalarDtypeOK dtype
  | .npComplexScalar dtype _ _ => complexDtypeOK dtype
  | .pyComplex _ im => decide (0 ≤ im)

/-- Obj.wfb over a list of objects. -/
def wfbList : List Obj → Bool
  | [] => true
  | o :: os => o.wfb && wfbList os

end

/-- The compressor settings under which the codec is specified: no
compression, zlib or blosc. -/
def compOK (comp : Option String) : Prop :=
  comp = none ∨ comp = some "zlib" ∨ comp = some "blosc"

/-- Row j of a block whose 2-D values have shape [ncols, nrows] stored
row-major: the values of the j-th column the block carries. -/
def blockRow (b : BlockM) (j : Nat) : List Int :=
  let nrows := b.values.shape.getD 1 0
  ((b.values.data.ravel).drop (j * nrows)).take nrows

/-- The values of table column i: locate the block whose placement carries
position i and read the corresponding row of its values. -/
def tableColumn (blocks : List BlockM) (i : Int) : Option (List Int) :=
  match blocks with
  | [] => none
  | b :: rest =>
    match b.locs.findIdx? (fun x => x == i) with
    | some j => some (blockRow b j)
    | none => tableColumn rest i

/-- The placements of the blocks are pairwise disjoint and their union is
exactly the column positions 0..n-1. -/
def placementPartition (blocks : List BlockM) (n : Nat) : Prop :=
  List.Pairwise (fun b1 b2 => ∀ x ∈ b1.locs, x ∉ b2.locs) blocks
  ∧ (∀ x ∈ blocks.flatMap (fun b => b.locs), ∃ k < n, x = (k : Int))
  ∧ (∀ k < n, (k : Int) ∈ blocks.flatMap (fun b => b.locs))

instance placementPartitionDec (blocks : List BlockM) (n : Nat) :
    Decidable (placementPartition blocks n) := by
  unfold placementPartition
  infer_instance

/-- Number of labels of an axis (used to tie a placement partition statement
to the column count of axes[0]). -/
def Obj.nitems : Obj → Option Nat
  | .index _ _ data => some data.len
  | .multiIndex _ data => some data.length
  | .dtIndex _ data _ _ => some data.length
  | .periodIndex _ _ data => some data.length
  | .rangeIndex _ start stop step =>
    if step = 1 then some (stop - start).toNat else none
  | _ => none

/-- The sources read_msgpack accepts: a file path, raw bytes, or an open
readable stream. -/
inductive Source where
  | path (p : String)
  | bytes (bs : List Int)
  | buffer (bs : List Int)

/-- What read_msgpack hands back in non-iterator mode: the single decoded
object when the source held exactly one, the list otherwise — or, for a
nonexistent path, a FileNotFoundError instance returned (not raised) as the
result value. -/
inductive ReadResult where
  | one (v : Value)
  | many (vs : List Value)
  | fileNotFound (msg : String)

/-- The tail of the inner read closure of read_msgpack: the single decoded
object when the source held exactly one top-level object, the full list
otherwise. -/
def readUnwrap (objs : List Value) : ReadResult :=
  match objs with
  | [v] => .one v              -- len(unpacked_obj) == 1: return unpacked_obj[0]
  | objs => .many objs         -- otherwise return the full list

/-- read_msgpack from packers.py, non-iterator mode. External pieces are
parameters: fs models the filesystem contents behind os.path.exists and open;
unpackDec models list(unpack(fh)) — the external msgpack unpacker driving the
decode hook over every top-level object of the byte stream.
get_filepath_or_buffer (external io.common) returns local paths and open
buffers unchanged; raising is the error case of the result. -/
def readMsgpack (fs : String → Option (List Int))
    (unpackDec : List Int → List Value) (src : Source) :
    Except String ReadResult :=
  let read : List Int → ReadResult := fun contents =>
    readUnwrap (unpackDec contents)
  match src with
  | .path p =>
    match fs p with
    | some contents => .ok (read contents)
    | none =>
      -- return FileNotFoundError({} not found.format(path_or_buf)):
      -- the exception object is the return value, nothing is raised
      .ok (.fileNotFound (p ++ " not found"))
  | .bytes bs => .ok (read bs)
  | .buffer bs => .ok (read bs)

/-- The byte contents a source resolves to, when it resolves. -/
def sourceContents (fs : String → Option (List Int)) :
    Source → Option (List Int)
  | .path p => fs p
  | .bytes bs => some bs
  | .buffer bs => some bs

/-- Parsing the canonical decimal representation restores the value: the
losslessness the spec requires of the repr-based scalar channel. -/
theorem canonParse_canonRepr (v : Int) : canonParse (canonRepr v) = v := by
  have hd : Nat.ofDigits 10 (Nat.digits 10 v.natAbs) = v.natAbs :=
    Nat.ofDigits_digits 10 v.natAbs
  unfold canonParse canonRepr
  dsimp only
  rcases lt_or_ge v 0 with h | h
  · rw [if_pos (decide_eq_true h), hd]
    omega
  · rw [if_neg (by simp [decide_eq_false (not_lt.mpr h)]), hd]
    omega

/-- The timezone-aware dtype name parses back to its zone. -/
theorem stripTzZone_name (z : String) :
    stripTzZone ("datetime64[ns, " ++ z ++ "]") = some z := by
  have hd : ("datetime64[ns, " ++ z ++ "]").data
      = tzNamePre ++ (z.data ++ (']' : Char) :: []) := by
    simp only [String.data_append, tzNamePre, List.append_assoc]
  have hlen : tzNamePre.length = 15 := by decide
  unfold stripTzZone
  rw [hd]
  have h1 : (tzNamePre ++ (z.data ++ [']'])).take 15 = tzNamePre := by
    rw [← hlen, List.take_left]
  have h2 : (tzNamePre ++ (z.data ++ [']'])).getLast? = some ']' := by
    rw [← List.append_assoc]
    simp
  have h3 : ((tzNamePre ++ (z.data ++ [']'])).drop 15).dropLast = z.data := by
    rw [← hlen, List.drop_left, List.dropLast_concat]
  rw [if_pos ⟨h1, h2⟩, h3]

/-- dtypeFor is a left inverse of Dtype.name on every dtype of the model. -/
theorem dtypeFor_name (d : Dtype) : dtypeFor d.name = .ok d := by
  cases d with
  | dt64tz z =>
    show dtypeFor ("datetime64[ns, " ++ z ++ "]") = _
    unfold dtypeFor
    rw [stripTzZone_name]
  | int64 => rfl
  | int32 => rfl
  | float64 => rfl
  | objectD => rfl
  | dt64ns => rfl
  | td64ns => rfl
  | categoryD => rfl
  | complex128 => rfl
  | complex64 => rfl

mutual

/-- Reading a python object back from its wire image restores it. -/
theorem pyObjOfValue_toValue (p : PyObj) :
    pyObjOfValue (pyObjToValue p) = some p := by
  match p with
  | .pint n => rfl
  | .pstr s => rfl
  | .ptup xs =>
    show (pyListOfValues (pyListToValues xs)).map PyObj.ptup = _
    rw [pyListOfValues_toValues xs]
    rfl

/-- List version of pyObjOfValue_toValue. -/
theorem pyListOfValues_toValues (ps : List PyObj) :
    pyListOfValues (pyListToValues ps) = some ps := by
  match ps with
  | [] => rfl
  | p :: rest =>
    show pyListOfValues (pyObjToValue p :: pyListToValues rest) = _
    unfold pyListOfValues
    rw [pyObjOfValue_toValue p, pyListOfValues_toValues rest]

end

attribute [simp] pyListOfValues_toValues dtypeFor_name canonParse_canonRepr

/-- asOptStr is a left inverse of optStrV. -/
@[simp] theorem asOptStr_optStrV (x : Option String) :
    asOptStr (optStrV x) = .ok x := by
  cases x <;> rfl

/-- asCanon reads back the canonical repr channel. -/
@[simp] theorem asCanon_canonV (v : Int) : asCanon (canonV v) = .ok v := by
  show Except.ok (canonParse ((canonRepr v).1, (canonRepr v).2)) = _
  rw [Prod.mk.eta, canonParse_canonRepr]

/-- asNumRepr reads back the raw repr of the canonical channel. -/
@[simp] theorem asNumRepr_canonV (v : Int) :
    asNumRepr (canonV v) = .ok (canonRepr v) := by
  show Except.ok ((canonRepr v).1, (canonRepr v).2) = _
  rw [Prod.mk.eta]

/-- npTypeDict is a left inverse of Dtype.name on ndarray dtypes. -/
@[simp] theorem npTypeDict_name (d : Dtype) (h : ndarrayDtypeOK d = true) :
    npTypeDict d.name = .ok d := by
  cases d <;> first | rfl | simp [ndarrayDtypeOK] at h

/-- Mapping a list into reader-ready values and traversing it with a
pointwise-successful reader succeeds with the pointwise results. -/
theorem mapM_map_okMem {α β γ : Type} (g : α → γ) (f : γ → Except String β)
    (r : α → β) (l : List α) (h : ∀ a ∈ l, f (g a) = .ok (r a)) :
    (l.map g).mapM f = .ok (l.map r) := by
  induction l with
  | nil => rfl
  | cons a rest ih =>
    rw [List.map_cons, List.map_cons, List.mapM_cons,
      h a (List.mem_cons_self a rest),
      ih (fun x hx => h x (List.mem_cons_of_mem a hx))]
    rfl

/-- Reading axes back from their wire images. -/
@[simp] theorem mapM_asObj_obj (l : List Obj) :
    (l.map Value.obj).mapM asObj = .ok l := by
  have h := mapM_map_okMem Value.obj asObj id l (fun a _ => rfl)
  simpa using h

/-- Reading a names list back from its wire image. -/
@[simp] theorem mapM_asOptStr_optStrV (l : List (Option String)) :
    (l.map optStrV).mapM asOptStr = .ok l := by
  have h := mapM_map_okMem optStrV asOptStr id l
    (fun a _ => asOptStr_optStrV a)
  simpa using h

/-- Reading a stored shape back. -/
@[simp] theorem asShape_encoded (shape : List Nat) :
    asShape (.seq (shape.map (fun n => Value.int (Nat.cast n)))) = .ok shape := by
  show Except.map (fun ns => List.map Int.toNat ns)
    (List.mapM asInt (shape.map (fun n => Value.int (Nat.cast n))))
      = Except.ok shape
  rw [mapM_map_okMem (fun n => Value.int (Nat.cast n)) asInt
    (fun n => Nat.cast n) shape (fun a _ => rfl)]
  simp [Except.map, List.map_map, Function.comp, Int.toNat_natCast]
  exact List.map_id shape

/-- Re-extracting the tuples of a multi_index payload. -/
@[simp] theorem mapM_pyTuple_ptup (data : List (List PyObj)) :
    (data.map PyObj.ptup).mapM pyTuple = .ok data := by
  have h := mapM_map_okMem PyObj.ptup pyTuple id data (fun a _ => rfl)
  simpa using h

/-- Re-extracting the per-block records of an encoded blocks field. -/
@[simp] theorem mapM_asMapKvs_encodeBlock (comp : Option String)
    (blocks : List BlockM) :
    (blocks.map (encodeBlock comp)).mapM asMapKvs
      = .ok (blocks.map (encodeBlockKvs comp)) :=
  mapM_map_okMem (encodeBlock comp) asMapKvs (encodeBlockKvs comp) blocks
    (fun _ _ => rfl)

/-- The multi_index dtype name resolves to the object dtype. -/
@[simp] theorem dtypeFor_object : dtypeFor "object" = .ok .objectD := rfl

/-- Reading the literal None name field of the interval-array and category
records. -/
@[simp] theorem asOptStr_nil : asOptStr .nil = .ok none := rfl

/-- Loop form of mapM_asObj_obj (full simp normalizes List.mapM into its
loop). -/
@[simp] theorem mapM_loop_asObj_obj (l : List Obj) :
    List.mapM.loop asObj (l.map Value.obj) [] = .ok l :=
  mapM_asObj_obj l

/-- Loop form of mapM_asOptStr_optStrV. -/
@[simp] theorem mapM_loop_asOptStr_optStrV (l : List (Option String)) :
    List.mapM.loop asOptStr (l.map optStrV) [] = .ok l :=
  mapM_asOptStr_optStrV l

/-- Loop form of mapM_pyTuple_ptup. -/
@[simp] theorem mapM_loop_pyTuple_ptup (data : List (List PyObj)) :
    List.mapM.loop pyTuple (data.map PyObj.ptup) [] = .ok data :=
  mapM_pyTuple_ptup data

/-- Loop form of mapM_asMapKvs_encodeBlock. -/
@[simp] theorem mapM_loop_asMapKvs_encodeBlock (comp : Option String)
    (blocks : List BlockM) :
    List.mapM.loop asMapKvs (blocks.map (encodeBlock comp)) []
      = .ok (blocks.map (encodeBlockKvs comp)) :=
  mapM_asMapKvs_encodeBlock comp blocks

/-- Decoding an encoded block record restores the block: restore reverses
flatten, the recorded shape comes back, and the placement is read from the
locs field that encode always records. -/
theorem createBlock_encodeBlock (comp : Option String) (cached : Bool)
    (axes : List Obj) (b : BlockM) (hwf : blockWF b = true)
    (hc : compOK comp) :
    createBlock cached axes (encodeBlockKvs comp b) = .ok b := by
  obtain ⟨⟨dtype, shape, data⟩, klass, locs⟩ := b
  simp only [blockWF] at hwf
  rcases hc with hc | hc | hc <;> subst hc <;> cases cached <;>
    rcases data with xs | xs <;> cases dtype <;>
      first
        | (simp_all [blockDtypeOK, ArrData.matches]; done)
        | (simp [createBlock, encodeBlockKvs, getf, getE, asStr, asIntArr,
             convert, unconvert, UncData.toArr, ArrData.tolist, ArrData.ravel,
             Dtype.isCategoricalDtype, Dtype.isObjectDtype, zlibCompress,
             zlibDecompress, bloscCompress, bloscDecompress, npToString,
             npFromBuffer, Bind.bind, Except.bind]; done)

/-- Encode-then-decode of a column-block table restores it: axes and klass
pass through, every block record round-trips. -/
theorem rt_table (comp : Option String) (cached : Bool) (klass : String)
    (axes : List Obj) (blocks : List BlockM)
    (hb : blocks.all blockWF = true) (hc : compOK comp) :
    (encode comp (.table klass axes blocks)).bind (decode cached)
      = .ok (.obj (.table klass axes blocks)) := by
  have hcb : List.mapM.loop (createBlock cached axes)
      (blocks.map (encodeBlockKvs comp)) [] = .ok blocks := by
    have h := mapM_map_okMem (encodeBlockKvs comp) (createBlock cached axes)
      id blocks
      (fun b hbmem => createBlock_encodeBlock comp cached axes b
        (List.all_eq_true.mp hb b hbmem) hc)
    simpa using h
  simp [encode, decode, getf, getE, asStr, Bind.bind, Except.bind, hcb]

/-- The typ tags of the decode dispatch table. -/
def knownTags : List String :=
  ["timestamp", "nat", "period", "index", "range_index", "multi_index",
   "period_index", "datetime_index", "interval_index", "interval_array",
   "category", "interval", "series", "block_manager", "datetime",
   "datetime64", "date", "timedelta", "timedelta64", "block_index",
   "int_index", "ndarray", "np_scalar", "np_complex"]

/-- C2: Duplicate-label tolerance: encode always records a locs field in
every block record, and a table whose two columns share one label
round-trips through the placement-based path with each decoded column equal
to its source column. -/
theorem c2_duplicate_label_locs (comp : Option String) (cached : Bool)
    (klass : String) (cname : Option String) (lbl : PyObj) (rowIdx : Obj)
    (blocks : List BlockM) (hb : blocks.all blockWF = true)
    (hc : compOK comp) :
    (∀ b ∈ blocks, ∃ lv, getf (encodeBlockKvs comp b) "locs" = some lv) ∧
    ∃ blocks2,
      (encode comp (.table klass
          [.index cname .objectD (.objs [lbl, lbl]), rowIdx] blocks)).bind
        (decode cached)
        = .ok (.obj (.table klass
            [.index cname .objectD (.objs [lbl, lbl]), rowIdx] blocks2)) ∧
      tableColumn blocks2 0 = tableColumn blocks 0 ∧
      tableColumn blocks2 1 = tableColumn blocks 1 :=
  ⟨fun b _ => ⟨_, rfl⟩,
   blocks,
   rt_table comp cached klass
     [.index cname .objectD (.objs [lbl, lbl]), rowIdx] blocks hb hc,
   rfl, rfl⟩

/-- Witness for C2: a one-block 2x2 int table whose two columns are both
labeled a; the decoded columns are the source columns. -/
theorem c2_duplicate_label_locs_witness :
    ([⟨⟨.int64, [2, 2], .ints [1, 2, 3, 4]⟩, "IntBlock", [0, 1]⟩]
        : List BlockM).all blockWF = true ∧
    ((∀ b ∈ ([⟨⟨.int64, [2, 2], .ints [1, 2, 3, 4]⟩, "IntBlock", [0, 1]⟩]
          : List BlockM),
        ∃ lv, getf (encodeBlockKvs none b) "locs" = some lv) ∧
      ∃ blocks2,
        (encode none (.table "DataFrame"
            [.index none .objectD (.objs [.pstr "a", .pstr "a"]),
             .rangeIndex none 0 2 1]
            [⟨⟨.int64, [2, 2], .ints [1, 2, 3, 4]⟩, "IntBlock", [0, 1]⟩])).bind
          (decode false)
          = .ok (.obj (.table "DataFrame"
              [.index none .objectD (.objs [.pstr "a", .pstr "a"]),
               .rangeIndex none 0 2 1] blocks2)) ∧
        tableColumn blocks2 0
          = tableColumn
            [⟨⟨.int64, [2, 2], .ints [1, 2, 3, 4]⟩, "IntBlock", [0, 1]⟩] 0 ∧
        tableColumn blocks2 1
          = tableColumn
            [⟨⟨.int64, [2, 2], .ints [1, 2, 3, 4]⟩, "IntBlock", [0, 1]⟩] 1) :=
  ⟨rfl,
   c2_duplicate_label_locs none false "DataFrame" none (.pstr "a")
     (.rangeIndex none 0 2 1)
     [⟨⟨.int64, [2, 2], .ints [1, 2, 3, 4]⟩, "IntBlock", [0, 1]⟩] rfl
     (Or.inl rfl)⟩

/-- C3: Placement partition invariant: for a table with n columns whose
blocks satisfy the BlockManager partition invariant, the decoded blocks have
pairwise disjoint placements whose union is exactly 0..n-1. -/
theorem c3_placement_partition (comp : Option String) (cached : Bool)
    (klass : String) (axes : List Obj) (blocks : List BlockM) (n : Nat)
    (hb : blocks.all blockWF = true) (hc : compOK comp)
    (hn : axes.head?.bind Obj.nitems = some n)
    (hpart : placementPartition blocks n) :
    ∃ blocks2,
      (encode comp (.table klass axes blocks)).bind (decode cached)
        = .ok (.obj (.table klass axes blocks2)) ∧
      placementPartition blocks2 n :=
  ⟨blocks, rt_table comp cached klass axes blocks hb hc, hpart⟩

/-- Witness for C3 at a two-block table over three columns. -/
theorem c3_placement_partition_witness :
    ([⟨⟨.int64, [2, 1], .ints [1, 2]⟩, "IntBlock", [0, 2]⟩,
      ⟨⟨.float64, [1, 1], .ints [7]⟩, "FloatBlock", [1]⟩]
        : List BlockM).all blockWF = true ∧
    ([Obj.index none .objectD (.objs [.pstr "a", .pstr "b", .pstr "c"]),
      Obj.rangeIndex none 0 1 1].head?.bind Obj.nitems = some 3) ∧
    placementPartition
      [⟨⟨.int64, [2, 1], .ints [1, 2]⟩, "IntBlock", [0, 2]⟩,
       ⟨⟨.float64, [1, 1], .ints [7]⟩, "FloatBlock", [1]⟩] 3 ∧
    ∃ blocks2,
      (encode none (.table "DataFrame"
          [.index none .objectD (.objs [.pstr "a", .pstr "b", .pstr "c"]),
           .rangeIndex none 0 1 1]
          [⟨⟨.int64, [2, 1], .ints [1, 2]⟩, "IntBlock", [0, 2]⟩,
           ⟨⟨.float64, [1, 1], .ints [7]⟩, "FloatBlock", [1]⟩])).bind
        (decode false)
        = .ok (.obj (.table "DataFrame"
            [.index none .objectD (.objs [.pstr "a", .pstr "b", .pstr "c"]),
             .rangeIndex none 0 1 1] blocks2)) ∧
      placementPartition blocks2 3 :=
  ⟨rfl, rfl, by decide,
   c3_placement_partition none false "DataFrame"
     [.index none .objectD (.objs [.pstr "a", .pstr "b", .pstr "c"]),
      .rangeIndex none 0 1 1]
     [⟨⟨.int64, [2, 1], .ints [1, 2]⟩, "IntBlock", [0, 2]⟩,
      ⟨⟨.float64, [1, 1], .ints [7]⟩, "FloatBlock", [1]⟩] 3 rfl (Or.inl rfl)
     rfl (by decide)⟩

/-- C4 (code bug in the source): for a path naming no existing file,
read_msgpack returns a FileNotFoundError value carrying the path as its
ordinary result — the call completes successfully and nothing is raised,
where the claim (and the docstring of read_msgpack) requires a failure. -/
theorem c4_missing_file_returned (fs : String → Option (List Int))
    (unpackDec : List Int → List Value) (p : String)
    (hmiss : fs p = none) :
    readMsgpack fs unpackDec (.path p)
      = .ok (.fileNotFound (p ++ " not found")) := by
  simp [readMsgpack, hmiss]

/-- Witness for C4 at a concrete missing path. -/
theorem c4_missing_file_returned_witness :
    ((fun _ => none : String → Option (List Int)) "data.msg" = none) ∧
    readMsgpack (fun _ => none) (fun _ => []) (.path "data.msg")
      = .ok (.fileNotFound ("data.msg" ++ " not found")) :=
  ⟨rfl, c4_missing_file_returned (fun _ => none) (fun _ => []) "data.msg" rfl⟩

/-- C5: Unknown-tag forward compatibility: a mapping without a typ key, and a
mapping whose typ is a string outside the dispatch table, decode to themselves
unchanged. -/
theorem c5_unknown_tag_passthrough (cached : Bool)
    (kvs : List (String × Value))
    (h : getf kvs "typ" = none
      ∨ ∃ t, getf kvs "typ" = some (.str t) ∧ t ∉ knownTags) :
    decode cached (.map kvs) = .ok (.map kvs) := by
  rcases h with h | ⟨t, hget, hmem⟩
  · simp [decode, h]
  · have hne : ∀ x ∈ knownTags, t ≠ x := fun x hx he => hmem (he ▸ hx)
    show (match getf kvs "typ" with
      | none => Except.ok (Value.map kvs)
      | some tv => _) = Except.ok (Value.map kvs)
    rw [hget]
    show (if t = "timestamp" then _ else _) = Except.ok (Value.map kvs)
    rw [if_neg (hne "timestamp" (by decide)),
      if_neg (hne "nat" (by decide)),
      if_neg (hne "period" (by decide)),
      if_neg (hne "index" (by decide)),
      if_neg (hne "range_index" (by decide)),
      if_neg (hne "multi_index" (by decide)),
      if_neg (hne "period_index" (by decide)),
      if_neg (hne "datetime_index" (by decide)),
      if_neg (fun hor => Or.elim hor (hne "interval_index" (by decide))
        (hne "interval_array" (by decide))),
      if_neg (hne "category" (by decide)),
      if_neg (hne "interval" (by decide)),
      if_neg (hne "series" (by decide)),
      if_neg (hne "block_manager" (by decide)),
      if_neg (hne "datetime" (by decide)),
      if_neg (hne "datetime64" (by decide)),
      if_neg (hne "date" (by decide)),
      if_neg (hne "timedelta" (by decide)),
      if_neg (hne "timedelta64" (by decide)),
      if_neg (hne "block_index" (by decide)),
      if_neg (hne "int_index" (by decide)),
      if_neg (hne "ndarray" (by decide)),
      if_neg (hne "np_scalar" (by decide)),
      if_neg (hne "np_complex" (by decide))]

/-- Witness for C5: a typ-less mapping and a mapping with an unknown tag both
pass through. -/
theorem c5_unknown_tag_passthrough_witness :
    (getf [("foo", Value.int 1)] "typ" = none) ∧
    decode false (.map [("foo", Value.int 1)])
      = .ok (.map [("foo", Value.int 1)]) ∧
    (getf [("typ", Value.str "future_tag")] "typ"
        = some (Value.str "future_tag") ∧ "future_tag" ∉ knownTags) ∧
    decode false (.map [("typ", Value.str "future_tag")])
      = .ok (.map [("typ", Value.str "future_tag")]) :=
  ⟨rfl,
   c5_unknown_tag_passthrough false [("foo", Value.int 1)] (Or.inl rfl),
   ⟨rfl, by decide⟩,
   c5_unknown_tag_passthrough false [("typ", Value.str "future_tag")]
     (Or.inr ⟨"future_tag", rfl, by decide⟩)⟩

/-- C6 counterexample: a non-nil compress value outside the known set (lz4)
does not make the codec fail when the dtype is object — unconvert returns the
object array and never reaches the compression check, refuting the claim as
stated. -/
theorem c6_counterexample :
    unconvert (.seq [.str "x"]) .objectD (some "lz4") false
      = .ok ⟨.objs [.pstr "x"], true, true, false⟩ := rfl

/-- C6 amended: on the byte-payload path of unconvert (extension or string
payload, dtype neither categorical nor object), every non-empty compress
value other than zlib and blosc fails with the ValueError enumerating the
allowed choices, and no array is returned; the categorical and object dtype
paths return before the check, the empty string is falsy and skips it, and
convert silently emits uncompressed data for unknown compressor names. -/
theorem c6_amended_unsupported_compress (values : Value) (dtype : Dtype)
    (c : String) (cached : Bool)
    (h1 : dtype.isCategoricalDtype = false)
    (h2 : dtype.isObjectDtype = false)
    (h3 : (∃ d, values = .ext 0 d) ∨ (∃ s, values = .str s))
    (h4 : c ≠ "") (h5 : c ≠ "zlib") (h6 : c ≠ "blosc") :
    unconvert values dtype (some c) cached
      = .error "ValueError: compress must be one of zlib or blosc" := by
  rcases h3 with ⟨d, rfl⟩ | ⟨s, rfl⟩ <;>
    simp [unconvert, h1, h2, h4, h5, h6]

/-- Witness for the C6 amended claim at a concrete extension payload. -/
theorem c6_amended_unsupported_compress_witness :
    Dtype.isCategoricalDtype .int64 = false ∧
    Dtype.isObjectDtype .int64 = false ∧
    ((∃ d, (Value.ext 0 [5] : Value) = .ext 0 d)
      ∨ (∃ s, (Value.ext 0 [5] : Value) = .str s)) ∧
    ("lz4" : String) ≠ "" ∧ ("lz4" : String) ≠ "zlib" ∧
    ("lz4" : String) ≠ "blosc" ∧
    unconvert (.ext 0 [5]) .int64 (some "lz4") false
      = .error "ValueError: compress must be one of zlib or blosc" :=
  ⟨rfl, rfl, Or.inl ⟨[5], rfl⟩, by decide, by decide, by decide,
   c6_amended_unsupported_compress (.ext 0 [5]) .int64 "lz4" false rfl rfl
     (Or.inl ⟨[5], rfl⟩) (by decide) (by decide) (by decide)⟩

/-- C7: encode refuses both sparse container variants with an explicit
NotImplementedError and returns no record for them. -/
theorem c7_sparse_unimplemented (comp : Option String) :
    encode comp .sparseSeries
        = .error "NotImplementedError: msgpack sparse series is not implemented"
      ∧ encode comp .sparseFrame
        = .error "NotImplementedError: msgpack sparse frame is not implemented" :=
  ⟨rfl, rfl⟩

/-- Witness for C7 at the default compressor setting. -/
theorem c7_sparse_unimplemented_witness :
    encode none Obj.sparseSeries
        = .error "NotImplementedError: msgpack sparse series is not implemented"
      ∧ encode none Obj.sparseFrame
        = .error "NotImplementedError: msgpack sparse frame is not implemented" :=
  c7_sparse_unimplemented none

/-- C8 counterexample: for the categorical dtype, unconvert returns its input
unchanged — the result is the very object passed in (priv and writable are
false in the provenance model), not a freshly allocated writable array,
refuting the claim for every dtype. -/
theorem c8_counterexample :
    unconvert
        (.obj (.categorical [0] (.index none .objectD (.objs [.pstr "a"]))
          false)) .categoryD none false
      = .ok ⟨.passthru (.obj (.categorical [0]
          (.index none .objectD (.objs [.pstr "a"])) false)),
          false, false, false⟩ := rfl

/-- C8 amended: for every payload, compress setting and non-categorical dtype
accepted by unconvert, the returned array is a freshly owned private buffer
and is writable. -/
theorem c8_amended_private_copy (values : Value) (dtype : Dtype)
    (compress : Option String) (cached : Bool) (r : UncRes)
    (hd : dtype.isCategoricalDtype = false)
    (hok : unconvert values dtype compress cached = .ok r) :
    r.priv = true ∧ r.writable = true := by
  unfold unconvert at hok
  rw [if_neg (by simp [hd])] at hok
  repeat' split at hok
  all_goals first
    | (subst hok; exact ⟨rfl, rfl⟩)
    | (injection hok with h; subst h; exact ⟨rfl, rfl⟩)
    | (exact absurd hok (by simp))

/-- Witness for the C8 amended claim at a decompressed int payload. -/
theorem c8_amended_private_copy_witness :
    Dtype.isCategoricalDtype .int64 = false ∧
    unconvert (.ext 0 [120, 7]) .int64 (some "zlib") false
      = .ok ⟨.ints [7], true, true, false⟩ ∧
    (⟨.ints [7], true, true, false⟩ : UncRes).priv = true ∧
    (⟨.ints [7], true, true, false⟩ : UncRes).writable = true :=
  ⟨rfl, rfl,
   c8_amended_private_copy (.ext 0 [120, 7]) .int64 (some "zlib") false
     ⟨.ints [7], true, true, false⟩ rfl rfl⟩

/-- C9: when decompression hits the buffer-ownership-transferred condition
(BadMove, modelled by cached = true), unconvert recovers the decompressed
bytes from the failure payload and returns them as a successful private
writable copy, warning exactly when the recovered data is longer than one
byte. -/
theorem c9_badmove_recovery (payload : List Int) (dtype : Dtype) (c : String)
    (h1 : dtype.isCategoricalDtype = false)
    (h2 : dtype.isObjectDtype = false)
    (hc : c = "zlib" ∨ c = "blosc") :
    ∃ r, unconvert (.ext 0 payload) dtype (some c) true = .ok r ∧
      r.data = .ints (if c = "zlib" then zlibDecompress payload
        else bloscDecompress payload) ∧
      r.priv = true ∧ r.writable = true ∧
      (r.warned = true ↔ 1 < (if c = "zlib" then zlibDecompress payload
        else bloscDecompress payload).length) := by
  rcases hc with rfl | rfl
  · refine ⟨⟨.ints (zlibDecompress payload), true, true,
      decide (1 < (zlibDecompress payload).length)⟩, ?_, by simp, rfl, rfl,
      by simp⟩
    simp [unconvert, h1, h2, npFromBuffer]
  · refine ⟨⟨.ints (bloscDecompress payload), true, true,
      decide (1 < (bloscDecompress payload).length)⟩, ?_, by simp, rfl, rfl,
      by simp⟩
    simp [unconvert, h1, h2, npFromBuffer]

/-- Witness for C9: a three-byte zlib payload is recovered with a warning. -/
theorem c9_badmove_recovery_witness :
    Dtype.isCategoricalDtype .int64 = false ∧
    Dtype.isObjectDtype .int64 = false ∧
    (("zlib" : String) = "zlib" ∨ ("zlib" : String) = "blosc") ∧
    ∃ r, unconvert (.ext 0 [120, 1, 2]) .int64 (some "zlib") true = .ok r ∧
      r.data = .ints (if ("zlib" : String) = "zlib"
        then zlibDecompress [120, 1, 2] else bloscDecompress [120, 1, 2]) ∧
      r.priv = true ∧ r.writable = true ∧
      (r.warned = true ↔ 1 < (if ("zlib" : String) = "zlib"
        then zlibDecompress [120, 1, 2]
        else bloscDecompress [120, 1, 2]).length) :=
  ⟨rfl, rfl, Or.inl rfl,
   c9_badmove_recovery [120, 1, 2] .int64 "zlib" rfl rfl (Or.inl rfl)⟩

/-- C10: in non-iterator mode, a source that resolves to contents holding
exactly one top-level object makes read_msgpack return that object itself;
zero or several objects make it return the full decoded list. -/
theorem c10_single_object_unwrap (fs : String → Option (List Int))
    (unpackDec : List Int → List Value) (src : Source) (c : List Int)
    (hres : sourceContents fs src = some c) :
    (∀ v, unpackDec c = [v]
      → readMsgpack fs unpackDec src = .ok (.one v)) ∧
    ((unpackDec c).length ≠ 1
      → readMsgpack fs unpackDec src = .ok (.many (unpackDec c))) := by
  have hr : readMsgpack fs unpackDec src = .ok (readUnwrap (unpackDec c)) := by
    cases src with
    | path p =>
      simp only [sourceContents] at hres
      simp [readMsgpack, hres]
    | bytes bs =>
      simp only [sourceContents, Option.some.injEq] at hres
      subst hres
      rfl
    | buffer bs =>
      simp only [sourceContents, Option.some.injEq] at hres
      subst hres
      rfl
  constructor
  · intro v hv
    rw [hr, hv]
    rfl
  · intro hlen
    rw [hr]
    match hu : unpackDec c with
    | [] => rfl
    | [v] => exact absurd (by rw [hu]; rfl : (unpackDec c).length = 1) hlen
    | v :: w :: rest => rfl

/-- Witness for C10: a one-object byte source unwraps to the object, a
two-object source returns the list. -/
theorem c10_single_object_unwrap_witness :
    (sourceContents (fun _ => none) (.bytes [1]) = some [1]) ∧
    readMsgpack (fun _ => none) (fun _ => [Value.int 5]) (.bytes [1])
      = .ok (.one (.int 5)) ∧
    readMsgpack (fun _ => none) (fun _ => [Value.int 5, Value.int 6])
        (.bytes [1])
      = .ok (.many [Value.int 5, Value.int 6]) :=
  ⟨rfl,
   (c10_single_object_unwrap (fun _ => none) (fun _ => [Value.int 5])
     (.bytes [1]) [1] rfl).1 (Value.int 5) rfl,
   (c10_single_object_unwrap (fun _ => none)
     (fun _ => [Value.int 5, Value.int 6]) (.bytes [1]) [1] rfl).2
     (by decide)⟩

end Packers
